import Mathlib

/-!
Verification of the patient-app client-side core: the cart store
(`cartUtils` in the repository's cart utility module) and the realtime
session bridge (`src/lib/socket.ts`).

Modelling conventions:
* JavaScript numbers carried by cart lines (`quantity`, `price`,
  `availableQuantity`, MRP, discount) are modelled as unbounded integers
  (`Int`); every value the claims touch is integral and well inside the
  exactly-representable double range.
* `localStorage` under the single cart key is modelled by `CartStorage`:
  the key can be absent, hold an unparseable string (`corrupt`, on which
  `JSON.parse` throws and the `catch` returns `[]`), or hold a
  well-formed serialized list.
* The `cartUpdated` browser event has no payload; we track only how many
  times it has been dispatched (`cartUpdatedEvents`).
* The socket bridge is modelled as a state machine over the module-level
  mutable variables of `src/lib/socket.ts` (`socket`, `isInitializing`,
  `connectionTimeout`, `connectionErrorCount`); the socket.io client
  object is modelled by `Sock` (identity, auth token, connected flag,
  listener registry), transport side effects by `SockAction` traces, and
  the `connect` / `disconnect` / `connect_error` handlers and the
  15-second watchdog as transition functions. Console logging is elided;
  the browser context and `API_BASE` configuration guards are assumed
  satisfied (the claims are about in-browser behavior).
-/

/-- The `CartItem` interface of the cart utility module: one cart line. -/
structure CartItem where
  productId : String
  medicineName : String
  composition : String
  brandName : Option String := none
  category : Option String := none
  quantity : Int
  price : Int
  mrp : Option Int := none
  discount : Option Int := none
  imageUrl : Option String := none
  pharmacyId : String
  pharmacyName : Option String := none
  prescriptionRequired : Option Bool := none
  availableQuantity : Int
deriving Repr, DecidableEq

/-- The key predicate used throughout `cartUtils`:
`cartItem.productId === productId && cartItem.pharmacyId === pharmacyId`. -/
def sameKey (c : CartItem) (productId pharmacyId : String) : Bool :=
  c.productId == productId && c.pharmacyId == pharmacyId

/-- `cartUtils.addToCart` on the in-memory list: find the first line with the
same `(productId, pharmacyId)`; if found, add the incoming quantity and cap at
the line's `availableQuantity`; otherwise push the item unchanged. -/
def addToCart : List CartItem → CartItem → List CartItem
  | [], item => [item]
  | c :: rest, item =>
    if sameKey c item.productId item.pharmacyId then
      { c with quantity :=
          if c.quantity + item.quantity > c.availableQuantity then
            c.availableQuantity
          else
            c.quantity + item.quantity } :: rest
    else
      c :: addToCart rest item

/-- `cartUtils.updateQuantity` on the in-memory list: on the first matching
line, splice it out when the requested quantity is `≤ 0`, otherwise store
`Math.min(quantity, availableQuantity)`. -/
def updateQuantity : List CartItem → String → String → Int → List CartItem
  | [], _, _, _ => []
  | c :: rest, p, s, q =>
    if sameKey c p s then
      if q ≤ 0 then rest
      else { c with quantity := min q c.availableQuantity } :: rest
    else
      c :: updateQuantity rest p s q

/-- `cartUtils.removeFromCart` on the in-memory list: keep every line whose
key differs. -/
def removeFromCart (cart : List CartItem) (p s : String) : List CartItem :=
  cart.filter (fun item => !(sameKey item p s))

/-- `cartUtils.isInCart`: `cart.some(...)` over the key predicate. -/
def isInCart (cart : List CartItem) (p s : String) : Bool :=
  cart.any (fun item => sameKey item p s)

/-- `cart.find`-style lookup of the first line with the given key (used to
observe the stored quantity of a line). -/
def findInCart (cart : List CartItem) (p s : String) : Option CartItem :=
  cart.find? (fun item => sameKey item p s)

/-- Number of cart lines carrying the given key. -/
def countKey (cart : List CartItem) (p s : String) : Nat :=
  (cart.filter (fun item => sameKey item p s)).length

/-- `cartUtils.getCartCount`: `cart.reduce((sum, item) => sum + item.quantity, 0)`. -/
def getCartCount (cart : List CartItem) : Int :=
  cart.foldl (fun sum item => sum + item.quantity) 0

/-- `cartUtils.getCartTotal`:
`cart.reduce((sum, item) => sum + item.price * item.quantity, 0)`. -/
def getCartTotal (cart : List CartItem) : Int :=
  cart.foldl (fun sum item => sum + item.price * item.quantity) 0

/-- The possible contents of `localStorage` under `CART_STORAGE_KEY`. -/
inductive CartStorage
  | absent
  | corrupt
  | stored (items : List CartItem)
deriving Repr, DecidableEq

/-- `cartUtils.getCart`: `localStorage.getItem` followed by `JSON.parse`
inside `try { ... } catch { return [] }`; a missing key yields `[]` via
`cartJson ? JSON.parse(cartJson) : []`. Total by construction: no exception
escapes. -/
def getCart : CartStorage → List CartItem
  | .absent => []
  | .corrupt => []
  | .stored items => items

/-- The cart store's observable browser state: the persisted value plus the
count of `cartUpdated` events dispatched so far. -/
structure CartEnv where
  storage : CartStorage
  cartUpdatedEvents : Nat
deriving Repr, DecidableEq

/-- `cartUtils.notifyCartUpdate`: dispatch one `cartUpdated` event. -/
def notifyCartUpdate (env : CartEnv) : CartEnv :=
  { env with cartUpdatedEvents := env.cartUpdatedEvents + 1 }

/-- `cartUtils.addToCart` at storage level: read, merge, persist, notify. -/
def addToCartEnv (env : CartEnv) (item : CartItem) : CartEnv :=
  notifyCartUpdate
    { env with storage := .stored (addToCart (getCart env.storage) item) }

/-- `cartUtils.updateQuantity` at storage level: persist and notify only when
`findIndex` succeeded; otherwise the call returns without touching anything. -/
def updateQuantityEnv (env : CartEnv) (p s : String) (q : Int) : CartEnv :=
  if isInCart (getCart env.storage) p s then
    notifyCartUpdate
      { env with storage := .stored (updateQuantity (getCart env.storage) p s q) }
  else
    env

/-- `cartUtils.removeFromCart` at storage level: filter, persist, notify —
unconditionally, whether or not a line matched. -/
def removeFromCartEnv (env : CartEnv) (p s : String) : CartEnv :=
  notifyCartUpdate
    { env with storage := .stored (removeFromCart (getCart env.storage) p s) }

/-- `cartUtils.clearCart` at storage level: `localStorage.removeItem` then
notify. -/
def clearCartEnv (env : CartEnv) : CartEnv :=
  notifyCartUpdate { env with storage := .absent }

/-- Cart lists reachable through the store's operations starting from the
empty cart, where every item handed to `addToCart` carries a positive
quantity within its stock snapshot (the shape every UI call site produces). -/
inductive ReachableCart : List CartItem → Prop
  | empty : ReachableCart []
  | add {cart : List CartItem} (item : CartItem) (hc : ReachableCart cart)
      (hq : 0 < item.quantity) (ha : item.quantity ≤ item.availableQuantity) :
      ReachableCart (addToCart cart item)
  | update {cart : List CartItem} (p s : String) (q : Int)
      (hc : ReachableCart cart) : ReachableCart (updateQuantity cart p s q)
  | remove {cart : List CartItem} (p s : String) (hc : ReachableCart cart) :
      ReachableCart (removeFromCart cart p s)
  | clear {cart : List CartItem} (hc : ReachableCart cart) : ReachableCart []

/-- Concrete cart line used in the spec's end-to-end scenario: product "P1"
from seller "S1", unit price 50, stock snapshot 3, quantity 1. -/
def p1Line : CartItem :=
  { productId := "P1", medicineName := "Paracetamol", composition := "500mg",
    quantity := 1, price := 50, pharmacyId := "S1", availableQuantity := 3 }

/-- The socket.io client handle created by `io(API_BASE, {...})`: its
identity, the auth token it was opened with, the transport's connected flag,
and its listener registry (event name paired with a handler identifier). -/
structure Sock where
  sid : Nat
  token : String
  connected : Bool
  listeners : List (String × Nat)
deriving Repr, DecidableEq

/-- Observable transport side effects of the bridge: `io(...)` opening a
connection, and `socket.disconnect()` closing one (which also stops the
client's own automatic reconnection attempts). -/
inductive SockAction
  | openConn (sid : Nat)
  | closeConn (sid : Nat)
deriving Repr, DecidableEq

/-- The module-level mutable state of `src/lib/socket.ts`: the singleton
`socket`, the `isInitializing` latch, whether the 15-second watchdog timer is
pending, and `connectionErrorCount`. -/
structure BridgeState where
  socket : Option Sock
  isInitializing : Bool
  connectionTimeout : Bool
  connectionErrorCount : Nat
deriving Repr, DecidableEq

/-- `disconnectSocket()`: reset `isInitializing` and `connectionErrorCount`,
clear the watchdog, then `removeAllListeners`, `disconnect` and null the
socket if one exists. -/
def disconnectSocket (st : BridgeState) : BridgeState × List SockAction :=
  match st.socket with
  | some s =>
    (⟨none, false, false, 0⟩, [SockAction.closeConn s.sid])
  | none =>
    (⟨none, false, false, 0⟩, [])

/-- The socket freshly produced by `io(API_BASE, { auth: { token }, ... })`:
not yet connected, no listeners. -/
def freshSock (sid : Nat) (token : String) : Sock :=
  ⟨sid, token, false, []⟩

/-- Tail of `initializeSocket` once all early returns are passed: set
`isInitializing`, clear any pending watchdog, call `io(...)`, arm the
watchdog, attach the handlers, and return the new socket.
`connectionErrorCount` is not touched on this path. -/
def openNewSocket (st : BridgeState) (token : String) (nextId : Nat)
    (acc : List SockAction) : BridgeState × Option Nat × List SockAction :=
  (⟨some (freshSock nextId token), true, true, st.connectionErrorCount⟩,
   some nextId, acc ++ [SockAction.openConn nextId])

/-- `initializeSocket(token)` for an in-browser caller with `API_BASE`
configured. `nextId` is the identity the next `io(...)` call would produce.
Returns the new module state, the returned handle (`none` models `null`),
and the transport actions performed, in order. -/
def initializeSocket (st : BridgeState) (token : String) (nextId : Nat) :
    BridgeState × Option Nat × List SockAction :=
  if token = "" then
    (st, none, [])
  else
    match st.socket with
    | some s =>
      if s.connected then
        if s.token = token then
          (st, some s.sid, [])
        else
          let d := disconnectSocket st
          openNewSocket d.1 token nextId d.2
      else
        if st.isInitializing then
          (st, some s.sid, [])
        else
          openNewSocket { st with socket := none } token nextId
            [SockAction.closeConn s.sid]
    | none =>
      openNewSocket st token nextId []

/-- The `connect` handler: clear `isInitializing`, zero the error counter,
clear the watchdog; the transport is now connected. -/
def onConnect (st : BridgeState) : BridgeState × List SockAction :=
  match st.socket with
  | some s =>
    (⟨some { s with connected := true }, false, false, 0⟩, [])
  | none => (st, [])

/-- The `disconnect` handler: clear `isInitializing` and the watchdog; a
clean (`io server disconnect` / `io client disconnect`) close also zeroes the
error counter. The transport is no longer connected. -/
def onDisconnect (st : BridgeState) (reason : String) :
    BridgeState × List SockAction :=
  match st.socket with
  | some s =>
    if reason == "io server disconnect" || reason == "io client disconnect" then
      (⟨some { s with connected := false }, false, false, 0⟩, [])
    else
      (⟨some { s with connected := false }, false, false,
        st.connectionErrorCount⟩, [])
  | none => (st, [])

/-- The `connect_error` handler: increment the counter and clear
`isInitializing`; once the counter reaches the cap of 3, disconnect the
transport, null the singleton and clear the watchdog. -/
def onConnectError (st : BridgeState) : BridgeState × List SockAction :=
  match st.socket with
  | some s =>
    if st.connectionErrorCount + 1 ≥ 3 then
      (⟨none, false, false, st.connectionErrorCount + 1⟩,
       [SockAction.closeConn s.sid])
    else
      (⟨some s, false, st.connectionTimeout, st.connectionErrorCount + 1⟩, [])
  | none => (st, [])

/-- The 15-second watchdog firing: if the socket still is not connected,
disconnect it (the handle itself is not nulled here). -/
def connectionTimeoutFires (st : BridgeState) : BridgeState × List SockAction :=
  if st.connectionTimeout then
    match st.socket with
    | some s =>
      if s.connected then
        ({ st with connectionTimeout := false }, [])
      else
        (⟨some s, false, false, st.connectionErrorCount⟩,
         [SockAction.closeConn s.sid])
    | none => ({ st with connectionTimeout := false }, [])
  else
    (st, [])

/-- `getSocket()`. -/
def getSocket (st : BridgeState) : Option Sock :=
  st.socket

/-- `onSocketEvent(event, callback)`: delegate to `socket.on` when a socket
exists; otherwise do nothing. -/
def onSocketEvent (st : BridgeState) (event : String) (callback : Nat) :
    BridgeState :=
  match st.socket with
  | some s =>
    let s2 : Sock := { s with listeners := s.listeners ++ [(event, callback)] }
    { st with socket := some s2 }
  | none => st

/-- `offSocketEvent(event, callback?)`: delegate to `socket.off` when a
socket exists (removing the given handler, or all handlers for the event
when none is given); otherwise do nothing. -/
def offSocketEvent (st : BridgeState) (event : String)
    (callback : Option Nat) : BridgeState :=
  match st.socket with
  | some s =>
    match callback with
    | some cb =>
      let s2 : Sock :=
        { s with listeners :=
            s.listeners.filter (fun l => !(l.1 == event && l.2 == cb)) }
      { st with socket := some s2 }
    | none =>
      let s2 : Sock :=
        { s with listeners := s.listeners.filter (fun l => !(l.1 == event)) }
      { st with socket := some s2 }
  | none => st

/-! ## Basic lemmas about the cart operations -/

theorem foldl_add_eq_sum (f : CartItem → Int) :
    ∀ (l : List CartItem) (a : Int),
      l.foldl (fun sum c => sum + f c) a = a + (l.map f).sum := by
  intro l
  induction l with
  | nil => intro a; simp
  | cons c rest ih =>
    intro a
    simp only [List.foldl_cons, List.map_cons, List.sum_cons, ih]
    ring

theorem clamp_eq_min (q a : Int) : (if q > a then a else q) = min q a := by
  rcases le_or_lt q a with h | h
  · rw [if_neg (not_lt.mpr h), min_eq_left h]
  · rw [if_pos h, min_eq_right h.le]

theorem countKey_eq_zero_of_not_in (cart : List CartItem) (p s : String)
    (h : isInCart cart p s = false) : countKey cart p s = 0 := by
  unfold countKey
  unfold isInCart at h
  rw [List.any_eq_false] at h
  simp only [List.length_eq_zero, List.filter_eq_nil_iff]
  intro a ha
  exact fun hk => h a ha hk

theorem findInCart_eq_none_of_not_in (cart : List CartItem) (p s : String)
    (h : isInCart cart p s = false) : findInCart cart p s = none := by
  unfold findInCart
  unfold isInCart at h
  rw [List.any_eq_false] at h
  exact List.find?_eq_none.mpr h

theorem addToCart_of_not_in (cart : List CartItem) (item : CartItem)
    (h : isInCart cart item.productId item.pharmacyId = false) :
    addToCart cart item = cart ++ [item] := by
  induction cart with
  | nil => rfl
  | cons c rest ih =>
    unfold isInCart at h
    rw [List.any_cons, Bool.or_eq_false_iff] at h
    unfold addToCart
    rw [if_neg (by simp [h.1]), ih h.2]
    rfl

theorem addToCart_append_merge (cart : List CartItem) (x item : CartItem)
    (hpx : x.productId = item.productId) (hsx : x.pharmacyId = item.pharmacyId)
    (h : isInCart cart item.productId item.pharmacyId = false) :
    addToCart (cart ++ [x]) item =
      cart ++ [{ x with quantity :=
        if x.quantity + item.quantity > x.availableQuantity then
          x.availableQuantity
        else
          x.quantity + item.quantity }] := by
  induction cart with
  | nil =>
    simp [addToCart, sameKey, hpx, hsx]
  | cons c rest ih =>
    unfold isInCart at h
    rw [List.any_cons, Bool.or_eq_false_iff] at h
    rw [List.cons_append, List.cons_append]
    unfold addToCart
    rw [if_neg (by simp [h.1]), ih h.2]

theorem findInCart_append_self (cart : List CartItem) (m : CartItem)
    (p s : String) (hm : sameKey m p s = true)
    (h : isInCart cart p s = false) :
    findInCart (cart ++ [m]) p s = some m := by
  induction cart with
  | nil => simp [findInCart, List.find?, hm]
  | cons c rest ih =>
    unfold isInCart at h
    rw [List.any_cons, Bool.or_eq_false_iff] at h
    rw [List.cons_append]
    unfold findInCart
    rw [List.find?_cons_of_neg _ (by simp [h.1])]
    exact ih h.2

theorem countKey_append_self (cart : List CartItem) (m : CartItem)
    (p s : String) (hm : sameKey m p s = true)
    (h : isInCart cart p s = false) :
    countKey (cart ++ [m]) p s = 1 := by
  unfold countKey
  rw [List.filter_append]
  have h0 : List.filter (fun item => sameKey item p s) cart = [] := by
    have := countKey_eq_zero_of_not_in cart p s h
    unfold countKey at this
    exact List.length_eq_zero.mp this
  rw [h0, List.nil_append]
  simp [List.filter, hm]

/-! ## Claim C1 -/

/-- Claim C1 (amended: the starting cart must not already hold the key —
`addToCart` merges into whatever quantity is already stored, so a
pre-existing line breaks the `min(q1+q2, availableQuantity)` formula): for
every cart with no line keyed `(L.productId, L.pharmacyId)`, adding `L` with
quantity `q1` and then with quantity `q2` leaves exactly one line for that
key, storing `min(q1+q2, L.availableQuantity)`; and the end-to-end scenario
(add `P1/S1`, price 50, stock 3, quantity 1, then quantity 5) stores 3 with
`getCartTotal = 150` and `getCartCount = 3`. -/
theorem addToCart_same_key_twice :
    (∀ (cart : List CartItem) (L : CartItem) (q1 q2 : Int),
      isInCart cart L.productId L.pharmacyId = false →
      countKey (addToCart (addToCart cart { L with quantity := q1 })
          { L with quantity := q2 }) L.productId L.pharmacyId = 1 ∧
      (findInCart (addToCart (addToCart cart { L with quantity := q1 })
          { L with quantity := q2 }) L.productId L.pharmacyId).map
          CartItem.quantity = some (min (q1 + q2) L.availableQuantity)) ∧
    (findInCart (addToCart (addToCart [] p1Line) { p1Line with quantity := 5 })
        "P1" "S1").map CartItem.quantity = some 3 ∧
    getCartTotal (addToCart (addToCart [] p1Line)
        { p1Line with quantity := 5 }) = 150 ∧
    getCartCount (addToCart (addToCart [] p1Line)
        { p1Line with quantity := 5 }) = 3 := by
  refine ⟨?_, by decide, by decide, by decide⟩
  intro cart L q1 q2 habs
  have h1 : addToCart cart { L with quantity := q1 } =
      cart ++ [{ L with quantity := q1 }] :=
    addToCart_of_not_in cart _ habs
  have h2 := addToCart_append_merge cart { L with quantity := q1 }
    { L with quantity := q2 } rfl rfl habs
  rw [h1, h2]
  constructor
  · exact countKey_append_self cart _ _ _ (by simp [sameKey]) habs
  · rw [findInCart_append_self cart _ _ _ (by simp [sameKey]) habs]
    show some (if q1 + q2 > L.availableQuantity then L.availableQuantity
      else q1 + q2) = some (min (q1 + q2) L.availableQuantity)
    rw [clamp_eq_min]

/-- Counterexample to Claim C1 as frozen: if the cart already holds the key
`(P1, S1)` with quantity 2 (stock 10), adding quantity 1 twice stores 4,
not `min(1+1, 10) = 2`. -/
theorem addToCart_same_key_twice_cex :
    (findInCart (addToCart (addToCart
        [{ p1Line with quantity := 2, availableQuantity := 10 }]
        { p1Line with quantity := 1, availableQuantity := 10 })
        { p1Line with quantity := 1, availableQuantity := 10 })
      "P1" "S1").map CartItem.quantity = some 4 ∧
    min ((1 : Int) + 1) 10 = 2 := by decide

/-- Witness for C1: the general statement applied to the empty cart and the
spec's scenario line. -/
theorem addToCart_same_key_twice_witness :
    countKey (addToCart (addToCart [] { p1Line with quantity := 1 })
      { p1Line with quantity := 5 }) "P1" "S1" = 1 :=
  (addToCart_same_key_twice.1 [] p1Line 1 5 (by decide)).1

/-! ## Claim C2 -/

theorem addToCart_mem_wf {cart : List CartItem} {item : CartItem}
    (hcart : ∀ c ∈ cart, 0 < c.quantity ∧ c.quantity ≤ c.availableQuantity)
    (hq : 0 < item.quantity) (ha : item.quantity ≤ item.availableQuantity) :
    ∀ c ∈ addToCart cart item,
      0 < c.quantity ∧ c.quantity ≤ c.availableQuantity := by
  induction cart with
  | nil =>
    intro c hc
    unfold addToCart at hc
    rw [List.mem_singleton] at hc
    subst hc
    exact ⟨hq, ha⟩
  | cons hd rest ih =>
    intro c hc
    have hhd := hcart hd (List.mem_cons_self hd rest)
    unfold addToCart at hc
    by_cases hk : sameKey hd item.productId item.pharmacyId
    · rw [if_pos hk, List.mem_cons] at hc
      rcases hc with rfl | hc
      · dsimp only
        constructor <;> split <;> omega
      · exact hcart c (List.mem_cons_of_mem hd hc)
    · rw [if_neg hk, List.mem_cons] at hc
      rcases hc with rfl | hc
      · exact hhd
      · exact ih (fun d hd2 => hcart d (List.mem_cons_of_mem hd hd2)) c hc

theorem updateQuantity_mem_wf {cart : List CartItem} (p s : String) (q : Int)
    (hcart : ∀ c ∈ cart, 0 < c.quantity ∧ c.quantity ≤ c.availableQuantity) :
    ∀ c ∈ updateQuantity cart p s q,
      0 < c.quantity ∧ c.quantity ≤ c.availableQuantity := by
  induction cart with
  | nil =>
    intro c hc
    unfold updateQuantity at hc
    simp at hc
  | cons hd rest ih =>
    intro c hc
    have hhd := hcart hd (List.mem_cons_self hd rest)
    unfold updateQuantity at hc
    by_cases hk : sameKey hd p s
    · rw [if_pos hk] at hc
      by_cases hq0 : q ≤ 0
      · rw [if_pos hq0] at hc
        exact hcart c (List.mem_cons_of_mem hd hc)
      · rw [if_neg hq0, List.mem_cons] at hc
        rcases hc with rfl | hc
        · dsimp only
          exact ⟨lt_min (by omega) (by omega), min_le_right _ _⟩
        · exact hcart c (List.mem_cons_of_mem hd hc)
    · rw [if_neg hk, List.mem_cons] at hc
      rcases hc with rfl | hc
      · exact hhd
      · exact ih (fun d hd2 => hcart d (List.mem_cons_of_mem hd hd2)) c hc

/-- Claim C2 (amended: the invariant `0 < quantity ≤ availableQuantity` is
maintained by every store operation provided each item handed to `addToCart`
itself satisfies it — the fresh-insert branch of `addToCart` pushes the item
verbatim, with no clamping or positivity check, so an out-of-range incoming
item lands in the cart unchanged). -/
theorem reachableCart_wf (cart : List CartItem) (h : ReachableCart cart) :
    ∀ c ∈ cart, 0 < c.quantity ∧ c.quantity ≤ c.availableQuantity := by
  induction h with
  | empty => intro c hc; simp at hc
  | add item hc hq ha ih => exact addToCart_mem_wf ih hq ha
  | update p s q hc ih => exact updateQuantity_mem_wf p s q ih
  | remove p s hc ih => exact fun c hcm => ih c (List.mem_of_mem_filter hcm)
  | clear hc ih => intro c hc2; simp at hc2

/-- Counterexample to Claim C2 as frozen: `addToCart` on a key not previously
present pushes the incoming item verbatim, so inserting quantity 5 with
stock 3 leaves a line whose quantity exceeds its `availableQuantity`. -/
theorem addToCart_fresh_insert_overflow :
    ∃ c ∈ addToCart [] { p1Line with quantity := 5 },
      c.availableQuantity < c.quantity :=
  ⟨{ p1Line with quantity := 5 }, by decide, by decide⟩

/-- Witness for C2: the invariant theorem applied to the reachable cart
obtained by one well-formed `addToCart`. -/
theorem reachableCart_wf_witness :
    0 < p1Line.quantity ∧ p1Line.quantity ≤ p1Line.availableQuantity :=
  reachableCart_wf (addToCart [] p1Line)
    (ReachableCart.add p1Line ReachableCart.empty (by decide) (by decide))
    p1Line (by decide)

/-! ## Claim C5 -/

theorem isInCart_eq_false_of_countKey_zero (cart : List CartItem)
    (p s : String) (h : countKey cart p s = 0) : isInCart cart p s = false := by
  unfold countKey at h
  rw [List.length_eq_zero] at h
  unfold isInCart
  rw [List.any_eq_false]
  intro a ha hk
  have hmem : a ∈ List.filter (fun item => sameKey item p s) cart :=
    List.mem_filter.mpr ⟨ha, hk⟩
  rw [h] at hmem
  simp at hmem

theorem updateQuantity_remove_of_nonpos (p s : String) (n : Int) (hn : n ≤ 0) :
    ∀ cart : List CartItem, countKey cart p s ≤ 1 →
      findInCart (updateQuantity cart p s n) p s = none := by
  intro cart
  induction cart with
  | nil => intro _; rfl
  | cons hd rest ih =>
    intro hcount
    unfold updateQuantity
    by_cases hk : sameKey hd p s
    · rw [if_pos hk, if_pos hn]
      apply findInCart_eq_none_of_not_in
      apply isInCart_eq_false_of_countKey_zero
      have hc : countKey (hd :: rest) p s = countKey rest p s + 1 := by
        unfold countKey
        simp [List.filter_cons, hk]
      omega
    · rw [if_neg hk]
      unfold findInCart
      rw [List.find?_cons_of_neg _ (by simp [hk])]
      have hc : countKey (hd :: rest) p s = countKey rest p s := by
        unfold countKey
        rw [List.filter_cons_of_neg (by simp [hk])]
      exact ih (by omega)

theorem updateQuantity_clamp (p s : String) (n : Int) :
    ∀ (cart : List CartItem) (c : CartItem),
      findInCart cart p s = some c → 0 < c.availableQuantity →
      c.availableQuantity < n →
      findInCart (updateQuantity cart p s n) p s =
        some { c with quantity := c.availableQuantity } := by
  intro cart
  induction cart with
  | nil => intro c hc _ _; simp [findInCart] at hc
  | cons hd rest ih =>
    intro c hc h0 hn
    unfold findInCart at hc
    by_cases hk : sameKey hd p s
    · rw [List.find?_cons_of_pos _ (by exact hk)] at hc
      injection hc with hc
      subst hc
      unfold updateQuantity
      rw [if_pos hk, if_neg (by omega)]
      unfold findInCart
      rw [List.find?_cons_of_pos _ (by exact hk)]
      rw [min_eq_right (by omega)]
    · rw [List.find?_cons_of_neg _ (by simp [hk])] at hc
      unfold updateQuantity
      rw [if_neg hk]
      unfold findInCart
      rw [List.find?_cons_of_neg _ (by simp [hk])]
      exact ih c hc h0 hn

/-- Claim C5 (amended: restricted to carts satisfying the data model — at
most one line per key, and a positive stock snapshot on the addressed line;
equivalently, the clamp clause additionally requires `n > 0`. Outside that
model the clauses contradict the code: with `availableQuantity < n ≤ 0` the
removal branch wins over the claimed clamp, and with a duplicated key only
the first line is spliced out): `updateQuantity(p, s, n)` with `n` above the
line's stock stores exactly the stock; with `n ≤ 0` it removes the line; and
with no matching line it changes nothing — neither storage nor the
`cartUpdated` event count. -/
theorem updateQuantity_spec (cart : List CartItem) (p s : String) (n : Int) :
    (∀ env : CartEnv, isInCart (getCart env.storage) p s = false →
      updateQuantityEnv env p s n = env) ∧
    (countKey cart p s ≤ 1 → n ≤ 0 →
      findInCart (updateQuantity cart p s n) p s = none) ∧
    (∀ c, findInCart cart p s = some c → 0 < c.availableQuantity →
      c.availableQuantity < n →
      findInCart (updateQuantity cart p s n) p s =
        some { c with quantity := c.availableQuantity }) := by
  refine ⟨?_, ?_, ?_⟩
  · intro env habs
    unfold updateQuantityEnv
    rw [habs]
    simp
  · intro hcount hn
    exact updateQuantity_remove_of_nonpos p s n hn cart hcount
  · intro c hc h0 hn
    exact updateQuantity_clamp p s n cart c hc h0 hn

/-- Counterexample to Claim C5 as frozen: (a) on a line with stock snapshot
`-2`, the call `updateQuantity(p, s, -1)` has `n > availableQuantity`, yet
the line is removed rather than stored at `-2`; (b) with the key duplicated,
`updateQuantity(p, s, 0)` splices out only the first line, so the key is
still in the cart. -/
theorem updateQuantity_spec_cex :
    (findInCart (updateQuantity [{ p1Line with availableQuantity := -2 }]
        "P1" "S1" (-1)) "P1" "S1" = none ∧
      ({ p1Line with availableQuantity := -2 } : CartItem).availableQuantity
        < -1) ∧
    isInCart (updateQuantity [p1Line, p1Line] "P1" "S1" 0) "P1" "S1" =
      true := by decide

/-- Witness for C5: removal at `n = 0` and clamping at `n = 10` on the
singleton scenario cart. -/
theorem updateQuantity_spec_witness :
    findInCart (updateQuantity [p1Line] "P1" "S1" 0) "P1" "S1" = none ∧
    findInCart (updateQuantity [p1Line] "P1" "S1" 10) "P1" "S1" =
      some { p1Line with quantity := 3 } := by
  constructor
  · exact (updateQuantity_spec [p1Line] "P1" "S1" 0).2.1 (by decide) (by decide)
  · exact (updateQuantity_spec [p1Line] "P1" "S1" 10).2.2 p1Line (by decide)
      (by decide) (by decide)

/-! ## Claim C6 -/

/-- Claim C6: after `removeFromCart(p, s)` the key is gone (`isInCart` is
false and no line with the key remains); removing an absent key is total and
leaves the list unchanged; and the `cartUpdated` signal fires on every call,
matched or not. -/
theorem removeFromCart_spec (cart : List CartItem) (p s : String) :
    isInCart (removeFromCart cart p s) p s = false ∧
    findInCart (removeFromCart cart p s) p s = none ∧
    (isInCart cart p s = false → removeFromCart cart p s = cart) ∧
    (∀ env : CartEnv, (removeFromCartEnv env p s).cartUpdatedEvents =
      env.cartUpdatedEvents + 1) := by
  have h1 : isInCart (removeFromCart cart p s) p s = false := by
    unfold isInCart removeFromCart
    rw [List.any_eq_false]
    intro a ha
    have h2 := (List.mem_filter.mp ha).2
    simp only [Bool.not_eq_true'] at h2
    simp [h2]
  refine ⟨h1, findInCart_eq_none_of_not_in _ _ _ h1, ?_, fun env => rfl⟩
  intro habs
  unfold removeFromCart
  apply List.filter_eq_self.mpr
  intro a ha
  unfold isInCart at habs
  rw [List.any_eq_false] at habs
  simp [habs a ha]

/-- Witness for C6: full removal of the only line, and the unchanged list on
a key that is absent. -/
theorem removeFromCart_spec_witness :
    isInCart (removeFromCart [p1Line] "P1" "S1") "P1" "S1" = false ∧
    removeFromCart [p1Line] "PX" "SX" = [p1Line] :=
  ⟨(removeFromCart_spec [p1Line] "P1" "S1").1,
   (removeFromCart_spec [p1Line] "PX" "SX").2.2.1 (by decide)⟩

/-! ## Claim C7 -/

/-- Claim C7: `getCart` is total over every possible storage content — a list
comes back in all cases, the empty list when the key is absent or the stored
value unparseable (the `catch` branch), and the parsed list otherwise; no
exception escapes. -/
theorem getCart_fail_open :
    getCart CartStorage.absent = [] ∧ getCart CartStorage.corrupt = [] ∧
    ∀ items : List CartItem, getCart (CartStorage.stored items) = items :=
  ⟨rfl, rfl, fun _ => rfl⟩

/-! ## Claim C8 -/

/-- Claim C8: `getCartTotal` is the sum of `price * quantity` over the lines
and `getCartCount` the sum of the quantities. -/
theorem getCartTotal_getCartCount_sum (cart : List CartItem) :
    getCartTotal cart = (cart.map (fun c => c.price * c.quantity)).sum ∧
    getCartCount cart = (cart.map (fun c => c.quantity)).sum := by
  constructor
  · unfold getCartTotal
    rw [foldl_add_eq_sum (fun c => c.price * c.quantity) cart 0, zero_add]
  · unfold getCartCount
    rw [foldl_add_eq_sum (fun c => c.quantity) cart 0, zero_add]

/-! ## Claim C3 -/

/-- Claim C3: with a connected socket, `initializeSocket(token)` with the
matching (non-empty) token returns the very same handle, changes no state
and opens no second connection; with a different non-empty token it first
tears the old connection down (`disconnectSocket`: close the transport, null
the handle) and only then opens a fresh one. -/
theorem initializeSocket_idempotent (st : BridgeState) (s : Sock)
    (token : String) (nextId : Nat) (hs : st.socket = some s)
    (hc : s.connected = true) (ht : token ≠ "") :
    (s.token = token →
      initializeSocket st token nextId = (st, some s.sid, [])) ∧
    (s.token ≠ token →
      initializeSocket st token nextId =
        (⟨some (freshSock nextId token), true, true, 0⟩, some nextId,
         [SockAction.closeConn s.sid, SockAction.openConn nextId])) := by
  cases st with
  | mk sock ii ct ec =>
    simp only [BridgeState.socket] at hs
    subst hs
    constructor
    · intro htok
      simp [initializeSocket, ht, hc, htok]
    · intro htok
      simp [initializeSocket, ht, hc, htok, disconnectSocket, openNewSocket]

/-- Witness for C3: a connected socket re-initialized with its own token. -/
theorem initializeSocket_idempotent_witness :
    initializeSocket ⟨some ⟨0, "tok", true, []⟩, false, false, 0⟩ "tok" 1 =
      (⟨some ⟨0, "tok", true, []⟩, false, false, 0⟩, some 0, []) :=
  (initializeSocket_idempotent ⟨some ⟨0, "tok", true, []⟩, false, false, 0⟩
    ⟨0, "tok", true, []⟩ "tok" 1 rfl rfl (by decide)).1 rfl

/-! ## Claim C4 -/

/-- Claim C4: starting from a bridge holding a socket with a zeroed error
counter, three consecutive `connect_error` events (three being the
configured cap) leave the first two attempts pending (no transport action),
and the third actively disconnects the transport and nulls the singleton.
The resulting state `⟨none, false, false, 3⟩` is terminal: every handler
event and the watchdog fix it with no further action — in particular no
reconnection is attempted — until a fresh `initializeSocket` with a
non-empty token installs a new socket. -/
theorem connectError_cap_terminal (st : BridgeState) (s : Sock)
    (hs : st.socket = some s) (he : st.connectionErrorCount = 0) :
    (onConnectError st).2 = [] ∧
    (onConnectError (onConnectError st).1).2 = [] ∧
    (onConnectError (onConnectError (onConnectError st).1).1).1 =
      ⟨none, false, false, 3⟩ ∧
    (onConnectError (onConnectError (onConnectError st).1).1).2 =
      [SockAction.closeConn s.sid] ∧
    onConnect (⟨none, false, false, 3⟩ : BridgeState) =
      (⟨none, false, false, 3⟩, []) ∧
    onConnectError (⟨none, false, false, 3⟩ : BridgeState) =
      (⟨none, false, false, 3⟩, []) ∧
    (∀ reason, onDisconnect (⟨none, false, false, 3⟩ : BridgeState) reason =
      (⟨none, false, false, 3⟩, [])) ∧
    connectionTimeoutFires (⟨none, false, false, 3⟩ : BridgeState) =
      (⟨none, false, false, 3⟩, []) ∧
    (∀ token nextId, token ≠ "" →
      (initializeSocket (⟨none, false, false, 3⟩ : BridgeState)
        token nextId).1.socket = some (freshSock nextId token)) := by
  cases st with
  | mk sock ii ct ec =>
    simp only [BridgeState.socket] at hs
    simp only [BridgeState.connectionErrorCount] at he
    subst hs
    subst he
    refine ⟨rfl, rfl, rfl, rfl, rfl, rfl, fun reason => rfl, rfl, ?_⟩
    intro token nextId ht
    simp [initializeSocket, ht, openNewSocket]

/-- Witness for C4: a freshly initialized bridge run through the three
failures. -/
theorem connectError_cap_terminal_witness :
    (onConnectError (onConnectError (onConnectError
      (⟨some ⟨0, "t", false, []⟩, true, true, 0⟩ : BridgeState)).1).1).1 =
      ⟨none, false, false, 3⟩ :=
  (connectError_cap_terminal ⟨some ⟨0, "t", false, []⟩, true, true, 0⟩
    ⟨0, "t", false, []⟩ rfl rfl).2.2.1

/-! ## Claim C9 -/

/-- Claim C9: `connectionErrorCount` is zeroed exactly by a successful
`connect`, a clean (`io server disconnect` / `io client disconnect`)
disconnect, or an explicit `disconnectSocket()` — while `connect_error`
always increments it (the cap-triggered teardown keeps the incremented
value) and `initializeSocket` on a nulled handle preserves it. Consequently
a bridge re-initialized right after a cap-triggered teardown (counter still
at 3, no intervening `disconnectSocket`) installs a fresh socket yet tears
itself down again on the very first further `connect_error`. -/
theorem connectionErrorCount_reset_policy :
    (∀ (st : BridgeState) (s : Sock), st.socket = some s →
      (onConnect st).1.connectionErrorCount = 0) ∧
    (∀ (st : BridgeState) (s : Sock) (reason : String), st.socket = some s →
      (onDisconnect st reason).1.connectionErrorCount =
        (if reason == "io server disconnect" ||
            reason == "io client disconnect" then 0
         else st.connectionErrorCount)) ∧
    (∀ st : BridgeState, (disconnectSocket st).1.connectionErrorCount = 0) ∧
    (∀ (st : BridgeState) (s : Sock), st.socket = some s →
      (onConnectError st).1.connectionErrorCount =
        st.connectionErrorCount + 1) ∧
    (∀ (st : BridgeState) (token : String) (nextId : Nat), st.socket = none →
      (initializeSocket st token nextId).1.connectionErrorCount =
        st.connectionErrorCount) ∧
    (∀ (st : BridgeState) (token : String) (nextId : Nat), st.socket = none →
      st.connectionErrorCount = 3 → token ≠ "" →
      (initializeSocket st token nextId).1.socket =
        some (freshSock nextId token) ∧
      (onConnectError (initializeSocket st token nextId).1).1.socket = none ∧
      (onConnectError (initializeSocket st token nextId).1).2 =
        [SockAction.closeConn nextId]) := by
  refine ⟨?_, ?_, ?_, ?_, ?_, ?_⟩
  · intro st s hs
    simp [onConnect, hs]
  · intro st s reason hs
    by_cases hr : reason == "io server disconnect" ||
        reason == "io client disconnect"
    · simp [onDisconnect, hs, hr]
    · simp [onDisconnect, hs, hr]
  · intro st
    cases h : st.socket <;> simp [disconnectSocket, h]
  · intro st s hs
    by_cases hcap : st.connectionErrorCount + 1 ≥ 3
    · simp [onConnectError, hs, hcap]
    · simp [onConnectError, hs, hcap]
  · intro st token nextId hs
    by_cases ht : token = ""
    · simp [initializeSocket, ht]
    · simp [initializeSocket, ht, hs, openNewSocket]
  · intro st token nextId hs h3 ht
    have hinit : (initializeSocket st token nextId).1 =
        ⟨some (freshSock nextId token), true, true, 3⟩ := by
      simp [initializeSocket, ht, hs, openNewSocket, h3]
    rw [hinit]
    refine ⟨rfl, rfl, rfl⟩

/-- Witness for C9: the post-teardown scenario at counter 3 — fresh socket
installed, then gone after one error. -/
theorem connectionErrorCount_reset_policy_witness :
    (initializeSocket (⟨none, false, false, 3⟩ : BridgeState) "t" 7).1.socket =
      some (freshSock 7 "t") ∧
    (onConnectError (initializeSocket (⟨none, false, false, 3⟩ : BridgeState)
      "t" 7).1).1.socket = none := by
  have h := connectionErrorCount_reset_policy.2.2.2.2.2
    ⟨none, false, false, 3⟩ "t" 7 rfl rfl (by decide)
  exact ⟨h.1, h.2.1⟩

/-! ## Claim C10 -/

/-- Claim C10: with no socket (before any initialization, or after a
teardown nulled the handle), `onSocketEvent` and `offSocketEvent` (with or
without a handler) return with no state change and no error, and the handler
is discarded for good — a connection opened afterwards starts with an empty
listener registry. -/
theorem socketEvent_noop_when_null (st : BridgeState) (event : String)
    (cb : Nat) (hs : st.socket = none) :
    onSocketEvent st event cb = st ∧
    offSocketEvent st event (some cb) = st ∧
    offSocketEvent st event none = st ∧
    (∀ (token : String) (nextId : Nat) (s' : Sock),
      (initializeSocket (onSocketEvent st event cb) token nextId).1.socket =
        some s' → s'.listeners = []) := by
  refine ⟨by simp [onSocketEvent, hs], by simp [offSocketEvent, hs],
    by simp [offSocketEvent, hs], ?_⟩
  intro token nextId s' hres
  rw [show onSocketEvent st event cb = st from by simp [onSocketEvent, hs]]
    at hres
  by_cases ht : token = ""
  · simp [initializeSocket, ht, hs] at hres
  · simp [initializeSocket, ht, hs, openNewSocket, freshSock] at hres
    rw [← hres]

/-- Witness for C10: the null-handle no-op at a concrete state. -/
theorem socketEvent_noop_when_null_witness :
    onSocketEvent (⟨none, false, false, 0⟩ : BridgeState) "order-status" 5 =
      ⟨none, false, false, 0⟩ ∧
    offSocketEvent (⟨none, false, false, 0⟩ : BridgeState) "order-status"
      none = ⟨none, false, false, 0⟩ :=
  ⟨(socketEvent_noop_when_null ⟨none, false, false, 0⟩ "order-status" 5
      rfl).1,
   (socketEvent_noop_when_null ⟨none, false, false, 0⟩ "order-status" 5
      rfl).2.2.1⟩
